import Mathlib

/-!
Formalization of the extraction and serialization pipeline of
`site_searcher.py`: the two query-strategy record builders
(`parse_with_selector`, `parse_with_xpath`), the output serializer
(`save_output`) and the driver (`main`), as a shallow embedding.

External library calls (the selector engine, the xpath engine, element
serialization and `urljoin`) are taken as function parameters: the
theorems quantify over them, since the program passes their results
through unchanged.
-/

/-- A node of the parsed markup tree: either a text segment or an element
with a tag name, attributes and children in document order. -/
inductive HNode where
  | text (s : String)
  | elem (tag : String) (attrs : List (String × String)) (children : List HNode)

/-- An element handle, as returned by the selector engine (a bs4 `Tag`) or
by an xpath node-set result (an lxml `_Element`). -/
structure HElem where
  tag : String
  attrs : List (String × String)
  children : List HNode

/-- Attribute lookup, modelling `el.get(attr)` (bs4) and `n.get(attr)`
(lxml): the value of the first attribute with the given name, or `None`. -/
def HElem.get (e : HElem) (a : String) : Option String :=
  (e.attrs.find? (fun p => p.1 = a)).map Prod.snd

mutual

/-- All descendant text segments of a node, in document order. -/
def itertextN : HNode → List String
  | .text s => [s]
  | .elem _ _ cs => itertextC cs
termination_by structural n => n

/-- All descendant text segments below a list of nodes, in document order. -/
def itertextC : List HNode → List String
  | [] => []
  | c :: cs => itertextN c ++ itertextC cs
termination_by structural l => l

end

/-- Python `str.strip()`: surrounding whitespace removed from both ends
(the characters in between, whitespace included, are kept). -/
def pyStrip (s : String) : String :=
  ⟨((s.data.dropWhile Char.isWhitespace).reverse.dropWhile Char.isWhitespace).reverse⟩

/-- bs4 `el.get_text(strip=True)`: each descendant text segment is stripped
individually, whitespace-only segments are dropped, and the remaining
segments are concatenated with no separator. -/
def get_text_strip (e : HElem) : String :=
  String.join (((itertextC e.children).map pyStrip).filter (fun s => s ≠ ""))

/-- lxml `"".join(n.itertext()).strip()`: the concatenation of all
descendant text segments, with only surrounding whitespace trimmed. -/
def itertext_join_strip (e : HElem) : String :=
  pyStrip (String.join (itertextC e.children))

/-- A record: a Python dict from field name to value, where `none` models
Python `None` and `some s` a string value. The list keeps insertion order,
as Python dicts do. -/
abbrev Record := List (String × Option String)

/-- Python dict assignment `d[k] = v`: replaces the value in place if the
key is present, appends the pair otherwise. -/
def dictSet : Record → String → Option String → Record
  | [], k, v => [(k, v)]
  | (k1, v1) :: d, k, v =>
    if k1 = k then (k1, v) :: d else (k1, v1) :: dictSet d k v

/-- Dict lookup: `some v` if the key is present with value `v` (where `v`
itself may be `none`, modelling Python `None`), `none` if the key is absent. -/
def dlookup : Record → String → Option (Option String)
  | [], _ => none
  | (k1, v) :: d, k => if k1 = k then some v else dlookup d k

/-- The keys of a record, in insertion order (Python `dict.keys()`). -/
def recKeys (d : Record) : List String :=
  d.map Prod.fst

theorem dlookup_dictSet_self (d : Record) (k : String) (v : Option String) :
    dlookup (dictSet d k v) k = some v := by
  induction d with
  | nil => simp [dictSet, dlookup]
  | cons p d ih =>
    obtain ⟨k1, v1⟩ := p
    by_cases h : k1 = k <;> simp [dictSet, dlookup, h, ih]

theorem dlookup_dictSet_ne (d : Record) (k k1 : String) (v : Option String)
    (h : k1 ≠ k) : dlookup (dictSet d k1 v) k = dlookup d k := by
  induction d with
  | nil => simp [dictSet, dlookup, h]
  | cons p d ih =>
    obtain ⟨k2, v2⟩ := p
    by_cases h2 : k2 = k1 <;> by_cases h3 : k2 = k <;>
      simp_all [dictSet, dlookup]

theorem dlookup_none_iff_not_mem_recKeys (d : Record) (k : String) :
    dlookup d k = none ↔ k ∉ recKeys d := by
  induction d with
  | nil => simp [dlookup, recKeys]
  | cons p d ih =>
    obtain ⟨k1, v1⟩ := p
    by_cases h : k1 = k
    · subst h
      simp [dlookup, recKeys]
    · simp [dlookup, recKeys, h, ih, Ne.symm h]

theorem dlookup_isSome_iff_mem_recKeys (d : Record) (k : String) :
    (dlookup d k).isSome ↔ k ∈ recKeys d := by
  rw [← not_iff_not]
  simp [Option.not_isSome_iff_eq_none, dlookup_none_iff_not_mem_recKeys]

/-- Python truthiness of `val` in `if val and base_url:`: `None` and the
empty string are falsy. -/
def optTruthy : Option String → Bool
  | none => false
  | some s => s ≠ ""

/-- The inner attribute-value step shared by both parse functions:
```
val = el.get(attr)           -- given here as `val`
if val and base_url:
    if attr in ("href", "src"):
        val = urljoin(base_url, val)
```
`urljoin` is the library function, passed in as a parameter. -/
def resolveVal (urljoin : String → String → String) (base_url a : String)
    (val : Option String) : Option String :=
  if optTruthy val && (base_url != "") && (a == "href" || a == "src") then
    val.map (urljoin base_url)
  else
    val

/-- The attribute block of both parse functions:
```
if attr:
    val = el.get(attr) ... (resolveVal)
    item[attr if attr else "value"] = val
```
(`attr` of Python `None` is `none`; an attribute name is truthy iff
nonempty, and inside the block the key is always the attribute name). -/
def attrStep (urljoin : String → String → String) (base_url : String)
    (attr : Option String) (el : HElem) (item : Record) : Record :=
  match attr with
  | none => item
  | some a =>
    if a != "" then dictSet item a (resolveVal urljoin base_url a (el.get a))
    else item

/-- Python `s[:n]`: the first `n` characters (code points) of `s`. -/
def pyTruncate (s : String) (n : Nat) : String :=
  ⟨s.data.take n⟩

/-- The record built by `parse_with_selector` for one matched element:
```
item = {}
if text: item["text"] = el.get_text(strip=True)
if attr: ... item[attr] = val
item["tag"] = el.name
item["html"] = str(el)[:1000]
```
`serialize` models the library call `str(el)`. -/
def selectorItem (serialize : HElem → String) (urljoin : String → String → String)
    (base_url : String) (attr : Option String) (textFlag : Bool) (el : HElem) :
    Record :=
  dictSet
    (dictSet
      (attrStep urljoin base_url attr el
        (if textFlag then dictSet [] "text" (some (get_text_strip el)) else []))
      "tag" (some el.tag))
    "html" (some (pyTruncate (serialize el) 1000))

/-- `parse_with_selector`: the selector engine (`BeautifulSoup(...).select`)
is passed in as `select`; the loop maps `selectorItem` over its matches in
order. -/
def parse_with_selector (select : String → String → List HElem)
    (serialize : HElem → String) (urljoin : String → String → String)
    (html selector base_url : String) (attr : Option String) (textFlag : Bool) :
    List Record :=
  (select html selector).map (selectorItem serialize urljoin base_url attr textFlag)

/-- An xpath evaluation result item: an element node, or a raw string
(`etree._ElementUnicodeResult` / `str`). -/
inductive XResult where
  | el (e : HElem)
  | str (s : String)

/-- The record built by `parse_with_xpath` for one result item:
```
item = {}
if isinstance(n, etree._ElementUnicodeResult) or isinstance(n, str):
    item["text"] = str(n); out.append(item); continue
if text: item["text"] = "".join(n.itertext()).strip()
if attr: ... item[attr] = val
item["tag"] = n.tag
item["html"] = lxml_html.tostring(n, encoding="unicode")[:1000]
```
`serialize` models the library call `lxml_html.tostring(n, encoding="unicode")`. -/
def xpathRecord (serialize : HElem → String) (urljoin : String → String → String)
    (base_url : String) (attr : Option String) (textFlag : Bool) : XResult → Record
  | .str s => dictSet [] "text" (some s)
  | .el el =>
    dictSet
      (dictSet
        (attrStep urljoin base_url attr el
          (if textFlag then dictSet [] "text" (some (itertext_join_strip el)) else []))
        "tag" (some el.tag))
      "html" (some (pyTruncate (serialize el) 1000))

/-- `parse_with_xpath`: the xpath engine (`lxml_html.fromstring(...).xpath`)
is passed in as `xpath`; the loop maps `xpathRecord` over its results in
order. -/
def parse_with_xpath (xpath : String → String → List XResult)
    (serialize : HElem → String) (urljoin : String → String → String)
    (html xp base_url : String) (attr : Option String) (textFlag : Bool) :
    List Record :=
  (xpath html xp).map (xpathRecord serialize urljoin base_url attr textFlag)

/-- The observable report printed by `save_output`: either
`"Wrote {len(items)} items to {output_path}"` or `"No items to write."`. -/
inductive Report where
  | wroteItems (n : Nat) (path : String)
  | noItems

/-- The contents of the file `save_output` creates: a JSON array of the
record objects (`json.dump(items, f, ensure_ascii=False, indent=2)`,
per-record field presence preserved), or a CSV table given as a header row
plus one row of cells per record. -/
inductive FileData where
  | json (items : List Record)
  | csv (header : List String) (rows : List (List String))

/-- What one call to `save_output` does: the file it writes, if any, and
the report it prints. -/
structure SaveResult where
  file : Option FileData
  report : Report

/-- The CSV key-unification step:
```
keys = set()
for it in items: keys.update(it.keys())
keys = list(keys)
```
The set iteration order is arbitrary but fixed within one run; it is
modelled as first-occurrence deduplication of the concatenated key lists. -/
def unionKeys (items : List Record) : List String :=
  (items.flatMap recKeys).dedup

/-- One CSV cell: `{k: it.get(k, "") for k in keys}` followed by the csv
module's rendering, which writes Python `None` as the empty string. -/
def cellOf (it : Record) (k : String) : String :=
  match dlookup it k with
  | some (some s) => s
  | some none => ""
  | none => ""

/-- Python `str.endswith(suffix)`. -/
def pyEndsWith (s suffix : String) : Bool :=
  suffix.data.isSuffixOf s.data

/-- `save_output`: JSON branch on a `.json` destination, otherwise the CSV
branch, which writes no file when the record sequence is empty. -/
def save_output (items : List Record) (output_path : String) : SaveResult :=
  if pyEndsWith output_path ".json" then
    ⟨some (.json items), .wroteItems items.length output_path⟩
  else if items.isEmpty then
    ⟨none, .noItems⟩
  else
    ⟨some (.csv (unionKeys items)
        (items.map (fun it => (unionKeys items).map (fun k => cellOf it k)))),
      .wroteItems items.length output_path⟩

/-- How `main` ends: the process exit code, and the serializer call's
outcome when the pipeline reached it (`none` means `save_output` was never
called, so no output file exists). -/
structure MainResult where
  exitCode : Nat
  saved : Option SaveResult

/-- The driver `main`, from the fetch call on: `fetchRes` is the outcome of
the chosen fetch function and `parse` the outcome of the chosen parse
function on the fetched markup (`Except.error` models a raised exception).
Fetch failure exits with code 2, parse failure with code 3; otherwise
`save_output` runs and the process ends normally with code 0. -/
def mainRun (fetchRes : Except String String)
    (parse : String → Except String (List Record)) (output_path : String) :
    MainResult :=
  match fetchRes with
  | .error _ => ⟨2, none⟩
  | .ok html =>
    match parse html with
    | .error _ => ⟨3, none⟩
    | .ok items => ⟨0, some (save_output items output_path)⟩

/-- Serialization of an attribute list, for the sample serializer below. -/
def serializeAttrs : List (String × String) → String
  | [] => ""
  | (k, v) :: r => " " ++ k ++ "=\x22" ++ v ++ "\x22" ++ serializeAttrs r

mutual

/-- Sample node serialization, standing in for the libraries' element
serialization when the quantified `serialize` parameter is instantiated in
concrete examples. -/
def serializeN : HNode → String
  | .text s => s
  | .elem t attrs cs =>
    "<" ++ t ++ serializeAttrs attrs ++ ">" ++ serializeC cs ++ "</" ++ t ++ ">"
termination_by structural n => n

/-- Sample serialization of a node list. -/
def serializeC : List HNode → String
  | [] => ""
  | c :: cs => serializeN c ++ serializeC cs
termination_by structural l => l

end

/-- Sample element serialization (see `serializeN`). -/
def serializeElem (e : HElem) : String :=
  "<" ++ e.tag ++ serializeAttrs e.attrs ++ ">" ++ serializeC e.children ++
    "</" ++ e.tag ++ ">"

/-- A sample joining function standing in for `urllib.parse.urljoin` when
the quantified `urljoin` parameter is instantiated in concrete examples
(the theorems never depend on how the join computes its result). -/
def urljoinSample (base v : String) : String :=
  base ++ v

theorem dlookup_attrStep_ne (uj : String → String → String) (b : String)
    (attr : Option String) (el : HElem) (item : Record) (k : String)
    (h : ∀ a, attr = some a → a ≠ k) :
    dlookup (attrStep uj b attr el item) k = dlookup item k := by
  match attr with
  | none => rfl
  | some a =>
    by_cases ha : a = ""
    · simp [attrStep, ha]
    · simp [attrStep, ha, dlookup_dictSet_ne _ _ _ _ (h a rfl)]

theorem dlookup_attrStep_self (uj : String → String → String) (b a : String)
    (el : HElem) (item : Record) (ha : a ≠ "") :
    dlookup (attrStep uj b (some a) el item) a =
      some (resolveVal uj b a (el.get a)) := by
  simp [attrStep, ha, dlookup_dictSet_self]

theorem dlookup_selectorItem_attr (sz : HElem → String)
    (uj : String → String → String) (b a : String) (tf : Bool) (el : HElem)
    (ha : a ≠ "") (hat : a ≠ "tag") (hah : a ≠ "html") :
    dlookup (selectorItem sz uj b (some a) tf el) a =
      some (resolveVal uj b a (el.get a)) := by
  unfold selectorItem
  rw [dlookup_dictSet_ne _ _ _ _ (Ne.symm hah),
    dlookup_dictSet_ne _ _ _ _ (Ne.symm hat),
    dlookup_attrStep_self _ _ _ _ _ ha]

theorem dlookup_xpathRecord_attr (sz : HElem → String)
    (uj : String → String → String) (b a : String) (tf : Bool) (el : HElem)
    (ha : a ≠ "") (hat : a ≠ "tag") (hah : a ≠ "html") :
    dlookup (xpathRecord sz uj b (some a) tf (.el el)) a =
      some (resolveVal uj b a (el.get a)) := by
  unfold xpathRecord
  rw [dlookup_dictSet_ne _ _ _ _ (Ne.symm hah),
    dlookup_dictSet_ne _ _ _ _ (Ne.symm hat),
    dlookup_attrStep_self _ _ _ _ _ ha]

theorem dlookup_selectorItem_text (sz : HElem → String)
    (uj : String → String → String) (b : String) (attr : Option String)
    (el : HElem) (hattr : ∀ a, attr = some a → a ≠ "text") :
    dlookup (selectorItem sz uj b attr true el) "text" =
      some (some (get_text_strip el)) := by
  unfold selectorItem
  rw [dlookup_dictSet_ne _ _ _ _ (by decide : ("html" : String) ≠ "text"),
    dlookup_dictSet_ne _ _ _ _ (by decide : ("tag" : String) ≠ "text"),
    dlookup_attrStep_ne _ _ _ _ _ _ hattr]
  simp [dlookup_dictSet_self]

theorem dlookup_xpathRecord_text (sz : HElem → String)
    (uj : String → String → String) (b : String) (attr : Option String)
    (el : HElem) (hattr : ∀ a, attr = some a → a ≠ "text") :
    dlookup (xpathRecord sz uj b attr true (.el el)) "text" =
      some (some (itertext_join_strip el)) := by
  unfold xpathRecord
  rw [dlookup_dictSet_ne _ _ _ _ (by decide : ("html" : String) ≠ "text"),
    dlookup_dictSet_ne _ _ _ _ (by decide : ("tag" : String) ≠ "text"),
    dlookup_attrStep_ne _ _ _ _ _ _ hattr]
  simp [dlookup_dictSet_self]

theorem pyTruncate_length_le (s : String) (n : Nat) :
    (pyTruncate s n).length ≤ n :=
  List.length_take_le n s.data

/-- C1 (amended): if the element has no attribute named `a`, the record
built with `extract_attr = a` still contains a field keyed `a`, mapped to
the null value `None` (the key is present, not omitted), under both the
Selector Strategy and the Path Strategy — for any requested attribute
name other than the always-set keys `tag` and `html`. -/
theorem c1_absent_attribute_key_present (serialize : HElem → String)
    (urljoin : String → String → String) (base_url a : String) (el : HElem)
    (textFlag : Bool) (ha : a ≠ "") (hat : a ≠ "tag") (hah : a ≠ "html")
    (habs : el.get a = none) :
    dlookup (selectorItem serialize urljoin base_url (some a) textFlag el) a =
      some none ∧
    dlookup (xpathRecord serialize urljoin base_url (some a) textFlag (.el el)) a =
      some none := by
  rw [dlookup_selectorItem_attr _ _ _ _ _ _ ha hat hah,
    dlookup_xpathRecord_attr _ _ _ _ _ _ ha hat hah]
  simp [resolveVal, habs, optTruthy]

/-- C1 (counterexample): the element `<a>` has no `href` attribute, yet
with `attr = "href"` the record of both strategies contains a field keyed
`href` (mapped to `None`), so the key is not absent as claimed. -/
theorem c1_counterexample :
    HElem.get ⟨"a", [], []⟩ "href" = none ∧
    dlookup (selectorItem serializeElem urljoinSample "https://x.com/"
      (some "href") false ⟨"a", [], []⟩) "href" = some none ∧
    dlookup (xpathRecord serializeElem urljoinSample "https://x.com/"
      (some "href") false (.el ⟨"a", [], []⟩)) "href" = some none :=
  ⟨by decide, by decide, by decide⟩

/-- C1 (witness): the amended statement at the element `<a>` with no
attributes and requested attribute `href`. -/
theorem c1_witness :
    dlookup (selectorItem serializeElem urljoinSample "https://x.com/"
      (some "href") true ⟨"a", [], []⟩) "href" = some none ∧
    dlookup (xpathRecord serializeElem urljoinSample "https://x.com/"
      (some "href") true (.el ⟨"a", [], []⟩)) "href" = some none :=
  c1_absent_attribute_key_present serializeElem urljoinSample "https://x.com/"
    "href" ⟨"a", [], []⟩ true (by decide) (by decide) (by decide) (by decide)

/-- C3 (amended): with text extraction requested (and the requested
attribute, if any, not named `text`), the Path Strategy `text` field is
the concatenation of all descendant text with only the surrounding
whitespace stripped, while the Selector Strategy `text` field is the
concatenation of the descendant text segments each stripped individually,
whitespace-only segments dropped; the two definitions are not the same. -/
theorem c3_text_field_values (serializeS serializeX : HElem → String)
    (urljoin : String → String → String) (base_url : String)
    (attr : Option String) (el : HElem)
    (hattr : ∀ a, attr = some a → a ≠ "text") :
    dlookup (selectorItem serializeS urljoin base_url attr true el) "text" =
      some (some (get_text_strip el)) ∧
    dlookup (xpathRecord serializeX urljoin base_url attr true (.el el)) "text" =
      some (some (itertext_join_strip el)) :=
  ⟨dlookup_selectorItem_text _ _ _ _ _ hattr,
   dlookup_xpathRecord_text _ _ _ _ _ hattr⟩

/-- C3 (counterexample): for `<div> a <b> b </b></div>` the Selector
Strategy record's `text` field (which is `"ab"`) is not the concatenation
of the descendant text with only surrounding whitespace trimmed (which is
`"a  b"`), refuting the claimed common definition. -/
theorem c3_counterexample :
    dlookup (selectorItem serializeElem urljoinSample "https://x.com" none true
        ⟨"div", [], [.text " a ", .elem "b" [] [.text " b "]]⟩) "text" ≠
      some (some (pyStrip (String.join
        (itertextC [HNode.text " a ", .elem "b" [] [.text " b "]])))) := by
  decide

/-- C3 (witness): the amended statement at `<p> hi </p>` with no requested
attribute. -/
theorem c3_witness :
    dlookup (selectorItem serializeElem urljoinSample "https://x.com" none true
      ⟨"p", [], [.text " hi "]⟩) "text" =
        some (some (get_text_strip ⟨"p", [], [.text " hi "]⟩)) ∧
    dlookup (xpathRecord serializeElem urljoinSample "https://x.com" none true
      (.el ⟨"p", [], [.text " hi "]⟩)) "text" =
        some (some (itertext_join_strip ⟨"p", [], [.text " hi "]⟩)) :=
  c3_text_field_values serializeElem serializeElem urljoinSample "https://x.com"
    none ⟨"p", [], [.text " hi "]⟩ (fun _ h => Option.noConfusion h)

/-- C4: a Path Strategy string result yields exactly the one-field record
`{"text": s}` — never `tag`, `html` or an attribute field — for every
choice of the extraction flags, and `parse_with_xpath` applies exactly
this record builder to every match in order. -/
theorem c4_string_result_record (serialize : HElem → String)
    (urljoin : String → String → String) (base_url : String)
    (attr : Option String) (textFlag : Bool) (s : String)
    (xpath : String → String → List XResult) (html xp : String) :
    xpathRecord serialize urljoin base_url attr textFlag (.str s) =
      [("text", some s)] ∧
    parse_with_xpath xpath serialize urljoin html xp base_url attr textFlag =
      (xpath html xp).map (xpathRecord serialize urljoin base_url attr textFlag) :=
  ⟨rfl, rfl⟩

/-- C5: on an empty record sequence, a `.json` destination gets a file
holding the empty JSON array while any other destination gets no file at
all, together with the `No items to write.` report, which is distinct
from the `Wrote N items` report used for every non-empty sequence. -/
theorem c5_empty_sequence (path : String) :
    (pyEndsWith path ".json" = true →
      save_output [] path = ⟨some (.json []), .wroteItems 0 path⟩) ∧
    (pyEndsWith path ".json" = false →
      save_output [] path = ⟨none, .noItems⟩) ∧
    (∀ items : List Record, items ≠ [] →
      (save_output items path).report = .wroteItems items.length path) ∧
    (∀ n p, Report.noItems ≠ Report.wroteItems n p) := by
  refine ⟨?_, ?_, ?_, ?_⟩
  · intro h
    simp [save_output, h]
  · intro h
    simp [save_output, h]
  · intro items hne
    by_cases h : pyEndsWith path ".json" <;>
      simp [save_output, h, List.isEmpty_iff, hne]
  · intro n p h
    exact Report.noConfusion h

/-- C5 (witness): the statement at the destinations `out.json` and
`out.csv`, with the empty sequence and a one-record sequence. -/
theorem c5_witness :
    save_output [] "out.json" = ⟨some (.json []), .wroteItems 0 "out.json"⟩ ∧
    save_output [] "out.csv" = ⟨none, .noItems⟩ ∧
    (save_output [[("tag", some "p")]] "out.csv").report =
      .wroteItems 1 "out.csv" :=
  ⟨(c5_empty_sequence "out.json").1 (by decide),
   (c5_empty_sequence "out.csv").2.1 (by decide),
   (c5_empty_sequence "out.csv").2.2.1 [[("tag", some "p")]] (by decide)⟩

/-- C6: on the tabular path with a non-empty sequence, the header is the
duplicate-free union of all field names across all records, every row is
generated from that same column list in the same order, a present
string-valued field is written as its value, and an absent field as the
empty string. -/
theorem c6_tabular_schema_unification (items : List Record) (path : String)
    (hne : items ≠ []) (hjson : pyEndsWith path ".json" = false) :
    (save_output items path).file =
      some (.csv (unionKeys items)
        (items.map (fun it => (unionKeys items).map (fun k => cellOf it k)))) ∧
    (∀ k, k ∈ unionKeys items ↔ ∃ it, it ∈ items ∧ (dlookup it k).isSome) ∧
    (unionKeys items).Nodup ∧
    (∀ it : Record, ∀ k s, dlookup it k = some (some s) → cellOf it k = s) ∧
    (∀ it : Record, ∀ k, dlookup it k = none → cellOf it k = "") := by
  refine ⟨?_, ?_, ?_, ?_, ?_⟩
  · simp [save_output, hjson, List.isEmpty_iff, hne]
  · intro k
    simp [unionKeys, List.mem_dedup, List.mem_flatMap,
      dlookup_isSome_iff_mem_recKeys]
  · exact List.nodup_dedup _
  · intro it k s h
    simp [cellOf, h]
  · intro it k h
    simp [cellOf, h]

/-- C6 (witness): the statement at a concrete one-record sequence and the
destination `out.csv`. -/
theorem c6_witness :
    (save_output [[("text", some "a")]] "out.csv").file =
      some (.csv (unionKeys [[("text", some "a")]])
        ([[("text", some "a")]].map (fun it =>
          (unionKeys [[("text", some "a")]]).map (fun k => cellOf it k)))) ∧
    (∀ k, k ∈ unionKeys [[("text", some "a")]] ↔
      ∃ it, it ∈ [[("text", some "a")]] ∧ (dlookup it k).isSome) ∧
    (unionKeys [[("text", some "a")]]).Nodup ∧
    (∀ it : Record, ∀ k s, dlookup it k = some (some s) → cellOf it k = s) ∧
    (∀ it : Record, ∀ k, dlookup it k = none → cellOf it k = "") :=
  c6_tabular_schema_unification [[("text", some "a")]] "out.csv"
    (by decide) (by decide)

/-- C7: under both strategies the `html` field of every element record is
the serialized element truncated to its first 1000 characters, so its
length never exceeds 1000, for arbitrarily large serialized elements. -/
theorem c7_html_truncation (serializeS serializeX : HElem → String)
    (urljoin : String → String → String) (base_url : String)
    (attr : Option String) (textFlag : Bool) (el : HElem) :
    dlookup (selectorItem serializeS urljoin base_url attr textFlag el) "html" =
      some (some (pyTruncate (serializeS el) 1000)) ∧
    dlookup (xpathRecord serializeX urljoin base_url attr textFlag (.el el)) "html" =
      some (some (pyTruncate (serializeX el) 1000)) ∧
    (pyTruncate (serializeS el) 1000).length ≤ 1000 ∧
    (pyTruncate (serializeX el) 1000).length ≤ 1000 :=
  ⟨dlookup_dictSet_self _ _ _, dlookup_dictSet_self _ _ _,
   pyTruncate_length_le _ _, pyTruncate_length_le _ _⟩

/-- C8: a fetch failure exits with code 2 and a parse failure with code 3
— distinct non-zero codes — and in both cases `save_output` is never
reached, so no output file is written. -/
theorem c8_exit_codes (fetchRes : Except String String)
    (parse : String → Except String (List Record)) (path : String) :
    (∀ e, fetchRes = .error e → mainRun fetchRes parse path = ⟨2, none⟩) ∧
    (∀ html e, fetchRes = .ok html → parse html = .error e →
      mainRun fetchRes parse path = ⟨3, none⟩) ∧
    (2 : Nat) ≠ 3 ∧ (2 : Nat) ≠ 0 ∧ (3 : Nat) ≠ 0 := by
  refine ⟨?_, ?_, by decide, by decide, by decide⟩
  · intro e h
    subst h
    rfl
  · intro html e h hp
    subst h
    simp [mainRun, hp]

/-- C8 (witness): the statement at a failing fetch and at a failing parse
over a successfully fetched page. -/
theorem c8_witness :
    mainRun (.error "connection refused") (fun _ => .ok []) "results.csv" =
      ⟨2, none⟩ ∧
    mainRun (.ok "<p></p>") (fun _ => .error "bad expression") "results.csv" =
      ⟨3, none⟩ :=
  ⟨(c8_exit_codes (.error "connection refused") (fun _ => .ok [])
      "results.csv").1 "connection refused" rfl,
   (c8_exit_codes (.ok "<p></p>") (fun _ => .error "bad expression")
      "results.csv").2.1 "<p></p>" "bad expression" rfl rfl⟩

/-- C9: for a requested `href`/`src` attribute, URL joining runs only on a
truthy (non-empty) attribute value: an empty-string value is stored
verbatim even when a base URL is known, while a non-empty value with a
known base URL is stored joined against it, under both strategies. -/
theorem c9_empty_value_not_resolved (serialize : HElem → String)
    (urljoin : String → String → String) (base_url a : String) (el : HElem)
    (textFlag : Bool) (hhs : a = "href" ∨ a = "src") :
    (el.get a = some "" →
      dlookup (selectorItem serialize urljoin base_url (some a) textFlag el) a =
        some (some "") ∧
      dlookup (xpathRecord serialize urljoin base_url (some a) textFlag (.el el)) a =
        some (some "")) ∧
    (∀ v, el.get a = some v → v ≠ "" → base_url ≠ "" →
      dlookup (selectorItem serialize urljoin base_url (some a) textFlag el) a =
        some (some (urljoin base_url v)) ∧
      dlookup (xpathRecord serialize urljoin base_url (some a) textFlag (.el el)) a =
        some (some (urljoin base_url v))) := by
  have ha : a ≠ "" := by rcases hhs with h | h <;> subst h <;> decide
  have hat : a ≠ "tag" := by rcases hhs with h | h <;> subst h <;> decide
  have hah : a ≠ "html" := by rcases hhs with h | h <;> subst h <;> decide
  constructor
  · intro hv
    rw [dlookup_selectorItem_attr _ _ _ _ _ _ ha hat hah,
      dlookup_xpathRecord_attr _ _ _ _ _ _ ha hat hah]
    simp [resolveVal, hv, optTruthy]
  · intro v hv hvne hb
    rw [dlookup_selectorItem_attr _ _ _ _ _ _ ha hat hah,
      dlookup_xpathRecord_attr _ _ _ _ _ _ ha hat hah]
    rcases hhs with h | h <;> subst h <;>
      simp [resolveVal, hv, optTruthy, hvne, bne_iff_ne, hb]

/-- C9 (witness): the statement at `<a href="">` (stored verbatim) and at
`<a href="/p">` (stored joined), with base URL `https://x.com/c/`. -/
theorem c9_witness :
    (dlookup (selectorItem serializeElem urljoinSample "https://x.com/c/"
        (some "href") false ⟨"a", [("href", "")], []⟩) "href" = some (some "") ∧
     dlookup (xpathRecord serializeElem urljoinSample "https://x.com/c/"
        (some "href") false (.el ⟨"a", [("href", "")], []⟩)) "href" =
          some (some "")) ∧
    (dlookup (selectorItem serializeElem urljoinSample "https://x.com/c/"
        (some "href") false ⟨"a", [("href", "/p")], []⟩) "href" =
          some (some (urljoinSample "https://x.com/c/" "/p")) ∧
     dlookup (xpathRecord serializeElem urljoinSample "https://x.com/c/"
        (some "href") false (.el ⟨"a", [("href", "/p")], []⟩)) "href" =
          some (some (urljoinSample "https://x.com/c/" "/p"))) :=
  ⟨(c9_empty_value_not_resolved serializeElem urljoinSample "https://x.com/c/"
      "href" ⟨"a", [("href", "")], []⟩ false (Or.inl rfl)).1 (by decide),
   (c9_empty_value_not_resolved serializeElem urljoinSample "https://x.com/c/"
      "href" ⟨"a", [("href", "/p")], []⟩ false (Or.inl rfl)).2 "/p" (by decide)
      (by decide) (by decide)⟩

/-- C10: with text extraction off and no attribute requested, every record
the Selector Strategy produces has exactly the two keys `tag` and `html`,
in that order, and no others. -/
theorem c10_default_record_keys (select : String → String → List HElem)
    (serialize : HElem → String) (urljoin : String → String → String)
    (html sel base_url : String) (r : Record)
    (hr : r ∈ parse_with_selector select serialize urljoin html sel base_url
      none false) :
    recKeys r = ["tag", "html"] := by
  obtain ⟨el, _, rfl⟩ := List.mem_map.mp hr
  simp [selectorItem, attrStep, dictSet, recKeys]

/-- C10 (witness): the statement at a selector engine returning one `<p>`
element. -/
theorem c10_witness :
    selectorItem serializeElem urljoinSample "https://x.com" none false
        ⟨"p", [], []⟩ ∈
      parse_with_selector (fun _ _ => [⟨"p", [], []⟩]) serializeElem
        urljoinSample "<p></p>" "p" "https://x.com" none false ∧
    recKeys (selectorItem serializeElem urljoinSample "https://x.com" none false
      ⟨"p", [], []⟩) = ["tag", "html"] :=
  ⟨by simp [parse_with_selector],
   c10_default_record_keys (fun _ _ => [⟨"p", [], []⟩]) serializeElem
     urljoinSample "<p></p>" "p" "https://x.com" _
     (by simp [parse_with_selector])⟩
